import Mathlib

/-!
Shallow embedding of the Evolution Studio MCP repository.

Source files embedded here:
- test_mcp.py: a stdio JSON-RPC protocol client. Its function send_request
  writes one serialized request line to the tool process, waits with
  select.select for readability of the process stdout up to a timeout, and
  then either raises (TimeoutError or RuntimeError for premature exit) or
  reads one line and returns the parsed JSON, or None for an empty line.
- main.py: the tool process. It registers three tool handlers with the
  FastMCP framework: generate_image, list_models, gpu_status.

External effects (select, poll, readline, the Gemini API, requests.get,
subprocess.run, the filesystem) are modelled as explicit environment
records: each field records the outcome the external world would give to
one call the Python code makes. The functions below are direct
transcriptions of the Python control flow over those outcomes.
-/

/-- A JSON-RPC request as built in test_mcp.py: an id (absent for
notifications) and a method string. send_request only inspects the method
field, via request.get applied to the key method. -/
structure Request where
  id : Option Nat
  method : String
deriving DecidableEq

/-- Environment of one send_request call in test_mcp.py (lines 15-27).
ready: whether select.select reports the process stdout readable before the
timeout expires. Note that POSIX select reports a pipe whose writer has
exited as readable (end of file counts as ready), so a dead process yields
ready = true with line = empty. exited: whether server.poll() returns a
non-None exit code at the moment it is called after the select timeout.
line: the string server.stdout.readline() returns when ready (empty string
means the stream is closed). stderr: the text server.stderr.read() returns
when drained. -/
structure PipeEnv where
  ready : Bool
  exited : Bool
  line : String
  stderr : String
deriving DecidableEq

/-- Outcome of one send_request call. A single invocation produces exactly
one of these. parsed carries the raw line handed to json.loads (which
returns the decoded object for valid JSON and raises a protocol violation
otherwise; no claim below depends on that distinction). returnedNone is the
Python return value None for an empty line. processExited and timeout are
the two raised errors, carrying their message strings. -/
inductive SendOutcome where
  | parsed (line : String)
  | returnedNone
  | processExited (msg : String)
  | timeout (msg : String)
deriving DecidableEq

/-- True exactly on the processExited outcome. -/
def SendOutcome.isProcessExited : SendOutcome → Bool
  | .processExited _ => true
  | _ => false

/-- Transcription of send_request from test_mcp.py lines 15-27: after
writing and flushing the request line, wait for readability; if nothing is
ready, raise RuntimeError with the drained stderr when the process has
exited, else raise TimeoutError naming the method; if data is ready, read
one line and return its parse, or None when the line is empty. -/
def send_request (env : PipeEnv) (req : Request) (t : Nat) : SendOutcome :=
  if !env.ready then
    if env.exited then
      SendOutcome.processExited ("Server exited early. Stderr:\n" ++ env.stderr)
    else
      SendOutcome.timeout ("No response after " ++ toString t ++ "s for " ++ req.method)
  else
    if env.line = "" then
      SendOutcome.returnedNone
    else
      SendOutcome.parsed env.line

/-- Values appearing in the result dictionaries built by the three tool
handlers in main.py: strings, integers, and lists of strings. -/
inductive PyVal where
  | str (s : String)
  | int (n : Int)
  | strList (xs : List String)
deriving DecidableEq

/-- A Python dict literal as built by the handlers: an association list of
string keys to values, in the order the source writes them. All dict
literals in main.py have pairwise distinct keys. -/
def PyDict : Type := List (String × PyVal)
deriving instance DecidableEq for PyDict

/-- Lookup of a key in a handler result dictionary. -/
def dictGet (d : PyDict) (k : String) : Option PyVal :=
  List.lookup k d

/-- Outcome of the requests.get probe to the local ComfyUI backend in
generate_image (main.py lines 69-74). ok: the call returned a response
object (any HTTP status). connectionError: the call raised a
requests.exceptions.ConnectionError, the only class the inner handler
catches. otherExc: the call raised any other exception, for instance a
read timeout, which escapes the inner handler and is caught by the outer
one; msg is the str of that exception. -/
inductive ReqOutcome where
  | ok
  | connectionError
  | otherExc (msg : String)
deriving DecidableEq

/-- Environment of one generate_image call (main.py lines 50-83).
genaiModel: outcome of the call to the lazy Gemini initializer; error
carries the str of the raised exception, for instance the ValueError
raised when GEMINI_API_KEY is missing. genContent: outcome of
model.generate_content applied to the enhancement instruction, projected
to its text attribute; ok carries that text. comfy: outcome of the probe
requests.get on port 8188 with timeout 2. -/
structure GenEnv where
  genaiModel : Except String Unit
  genContent : Except String String
  comfy : ReqOutcome

/-- Transcription of generate_image from main.py lines 50-83. The whole
body sits in a try block whose except clause returns a dict with status
error and the exception message, so the function always returns a dict and
never propagates an exception; this is why the result is always ok.
On the success path the returned dict carries status success, the original
prompt, the enhanced prompt, and the backend status string chosen by the
probe. The workflow argument of the source is accepted and not used by the body. -/
def generate_image (env : GenEnv) (prompt : String) (_workflow : String) :
    Except String PyDict :=
  Except.ok (
    match env.genaiModel with
    | Except.error e => [("status", PyVal.str "error"), ("message", PyVal.str e)]
    | Except.ok _ =>
      match env.genContent with
      | Except.error e => [("status", PyVal.str "error"), ("message", PyVal.str e)]
      | Except.ok enhanced =>
        match env.comfy with
        | ReqOutcome.otherExc e =>
            [("status", PyVal.str "error"), ("message", PyVal.str e)]
        | ReqOutcome.ok =>
            [("status", PyVal.str "success"),
             ("original_prompt", PyVal.str prompt),
             ("enhanced_prompt", PyVal.str enhanced),
             ("backend_status", PyVal.str "ComfyUI is ONLINE")]
        | ReqOutcome.connectionError =>
            [("status", PyVal.str "success"),
             ("original_prompt", PyVal.str prompt),
             ("enhanced_prompt", PyVal.str enhanced),
             ("backend_status",
              PyVal.str "ComfyUI is OFFLINE (Start it to generate real images)")])

/-- One entry yielded by path.iterdir() in list_models (main.py line 90):
its name and the value of its is_file test. -/
structure DirEntry where
  name : String
  is_file : Bool
deriving DecidableEq

/-- Environment of one list_models call (main.py lines 86-92). dirExists:
the value of path.exists() for /mnt/scratch/models/GGUF. listing: outcome
of iterating path.iterdir(); error carries the str of a raised OSError,
for instance a PermissionError on an unreadable directory. -/
structure FsEnv where
  dirExists : Bool
  listing : Except String (List DirEntry)

/-- Transcription of list_models from main.py lines 86-92. Unlike the
other two handlers the body has no try block: when the directory exists
and iterating it raises, the exception propagates out of the handler,
modelled by the error result. When the directory exists and iteration
succeeds, the handler returns category GGUF, the names of the regular
files, and their count. When the directory does not exist it returns
status empty with a fixed message. -/
def list_models (env : FsEnv) : Except String PyDict :=
  if env.dirExists then
    match env.listing with
    | Except.error e => Except.error e
    | Except.ok entries =>
      Except.ok
        [("category", PyVal.str "GGUF"),
         ("models", PyVal.strList ((entries.filter fun f => f.is_file).map fun f => f.name)),
         ("count", PyVal.int ((entries.filter fun f => f.is_file).map fun f => f.name).length)]
  else
    Except.ok
      [("status", PyVal.str "empty"),
       ("message", PyVal.str "No GGUF models found in /mnt/scratch/models/GGUF")]

/-- The whitespace characters the Python str.strip method removes when
called with no argument (restricted to the ASCII range, which covers the
nvidia-smi output format): space, tab, newline, carriage return, vertical
tab, form feed. -/
def isPySpace (c : Char) : Bool :=
  c = ' ' || c = '\t' || c = '\n' || c = '\r' || c = '\x0b' || c = '\x0c'

/-- Transcription of the Python str.strip method with no argument: drop
leading and trailing whitespace characters. -/
def pyStrip (s : String) : String :=
  String.mk (((s.data.dropWhile isPySpace).reverse.dropWhile isPySpace).reverse)

/-- Transcription of the Python str.split method with a one-character
separator, over the character list: split at every separator occurrence,
keeping empty fields, so the result has one more field than there are
separator occurrences and is never the empty list. -/
def pySplitChar (c : Char) : List Char → List (List Char)
  | [] => [[]]
  | x :: xs =>
    if x = c then [] :: pySplitChar c xs
    else
      match pySplitChar c xs with
      | [] => [[x]]
      | y :: ys => (x :: y) :: ys

/-- The Python str.split method with a one-character separator, as used on
the comma in gpu_status. -/
def pySplit (s : String) (c : Char) : List String :=
  (pySplitChar c s.data).map String.mk

/-- The completed-process value subprocess.run returns in gpu_status
(main.py lines 99-104): its returncode and captured stdout text. -/
structure SubprocResult where
  returncode : Int
  stdout : String
deriving DecidableEq

/-- Environment of one gpu_status call (main.py lines 95-115). run: the
outcome of subprocess.run on the nvidia-smi query with timeout 5; error
carries the str of a raised exception, for instance FileNotFoundError when
the binary is absent or TimeoutExpired after 5 seconds. -/
structure GpuEnv where
  run : Except String SubprocResult

/-- Transcription of gpu_status from main.py lines 95-115. On returncode
zero the stripped stdout is split on commas and unpacked into exactly
three fields; a different field count raises a ValueError that the except
clause turns into a status error dict, with the CPython unpack message.
On nonzero returncode the handler returns a fixed error dict. A raised
exception from subprocess.run is caught by the same except clause. The
success dict carries the three formatted telemetry fields and no status
field. -/
def gpu_status (env : GpuEnv) : Except String PyDict :=
  Except.ok (
    match env.run with
    | Except.error e => [("status", PyVal.str "error"), ("message", PyVal.str e)]
    | Except.ok r =>
      if r.returncode = 0 then
        match pySplit (pyStrip r.stdout) ',' with
        | [used, total, util] =>
            [("vram_used", PyVal.str (used ++ " MB")),
             ("vram_total", PyVal.str (total ++ " MB")),
             ("gpu_utilization", PyVal.str (util ++ " %"))]
        | xs =>
            [("status", PyVal.str "error"),
             ("message", PyVal.str
               (if xs.length < 3 then
                 "not enough values to unpack (expected 3, got " ++ toString xs.length ++ ")"
                else "too many values to unpack (expected 3)"))]
      else
        [("status", PyVal.str "error"), ("message", PyVal.str "Could not read GPU stats")])

/-- One network or process-spawn side effect performed inside a tool
handler, as written at its call site in main.py: the callee and the
explicit timeout argument passed to it, in seconds, or none when the call
site passes no time bound. -/
structure ExternalCall where
  callee : String
  timeoutSeconds : Option Nat
deriving DecidableEq

/-- The network and process-spawn side effects inside generate_image, in
source order (main.py lines 59-74): the Gemini prompt-enhancement call
model.generate_content, invoked with no timeout argument, and the probe
requests.get on http 127.0.0.1 port 8188, invoked with timeout 2. -/
def generate_image_external_calls : List ExternalCall :=
  [{ callee := "model.generate_content", timeoutSeconds := none },
   { callee := "requests.get 127.0.0.1:8188", timeoutSeconds := some 2 }]

/-- The process-spawn side effect inside gpu_status (main.py lines
99-104): subprocess.run on the nvidia-smi query, invoked with timeout 5. -/
def gpu_status_external_calls : List ExternalCall :=
  [{ callee := "subprocess.run nvidia-smi", timeoutSeconds := some 5 }]

/-- The tool registry of main.py: the names of the three functions
decorated with mcp.tool, in their registration order (lines 49, 85, 94).
The registry is fixed at import time and never mutated afterwards. -/
def registered_tools : List String :=
  ["generate_image", "list_models", "gpu_status"]

/-- Modelled from the spec: the dispatch of the tools list method lives in
the FastMCP framework, not in this repository; per the spec it returns the
ordered sequence of descriptors of the registered tools and is side-effect
free, so it is a pure function of the immutable registry. The argument
indexes which call of the session this is; the result does not depend on
it. -/
def tools_list (_call : Nat) : List String :=
  registered_tools

/-- One operation performed on the child process handle during teardown in
test_mcp.py. terminate is server.terminate (graceful termination request;
per the Python subprocess library it does nothing and does not raise when
the process already exited). wait carries the timeout argument given to
server.wait, none meaning an unbounded wait. kill would be a forced
server.kill. -/
inductive ProcOp where
  | terminate
  | wait (bound : Option Nat)
  | kill
deriving DecidableEq

/-- How the body of main in test_mcp.py finished: normally, or with a
raised exception carrying a message. -/
inductive BodyOutcome where
  | ok
  | raised (e : String)
deriving DecidableEq

/-- The operations the finally clause of main runs on the process handle
(test_mcp.py lines 106-108): server.terminate() then server.wait() with no
timeout argument. -/
def shutdown_ops : List ProcOp :=
  [ProcOp.terminate, ProcOp.wait none]

/-- Transcription of the teardown structure of main (test_mcp.py lines
48-108): the body runs inside a try block and the finally clause runs
shutdown_ops whatever the body outcome was, normal return or exception on
any earlier step. -/
def main_teardown (body : BodyOutcome) : List ProcOp :=
  match body with
  | BodyOutcome.ok => shutdown_ops
  | BodyOutcome.raised _ => shutdown_ops

/-- Modelled from the spec and the Python subprocess library contract it
relies on: Popen.terminate on a process that already exited does nothing
and raises no exception, so the call always succeeds whatever the liveness
of the process. -/
def terminate_effect (_alreadyExited : Bool) : Except String Unit :=
  Except.ok ()

/-- C1, counterexample. A process killed immediately after spawn, before
answering: its stdout is at end of file, which select reports as readable
(ready = true), poll would report the exit (exited = true), and readline
yields the empty string. On this concrete input send_request returns None
instead of failing with the ProcessExited error, refuting the claim that
every request against a process that terminated before answering fails
with a ProcessExited-class error. -/
theorem send_request_dead_eof_returns_none :
    send_request { ready := true, exited := true, line := "", stderr := "boom" }
        { id := some 0, method := "initialize" } 15
      = SendOutcome.returnedNone
    ∧ (send_request { ready := true, exited := true, line := "", stderr := "boom" }
        { id := some 0, method := "initialize" } 15).isProcessExited = false :=
  ⟨rfl, rfl⟩

/-- C1 (amended): when select reports nothing readable within the timeout
window and the process has exited, send_request fails with the RuntimeError
whose message includes the captured stderr text, and not with a Timeout;
when the exited process makes the stream readable at end of file,
send_request instead returns None. -/
theorem send_request_exited_not_ready (env : PipeEnv) (req : Request) (t : Nat)
    (hr : env.ready = false) (he : env.exited = true) :
    send_request env req t
      = SendOutcome.processExited ("Server exited early. Stderr:\n" ++ env.stderr) := by
  simp [send_request, hr, he]

/-- Witness for the amended C1 theorem at a concrete environment. -/
theorem send_request_exited_not_ready_witness :
    send_request
        { ready := false, exited := true, line := "",
          stderr := "ValueError: GEMINI_API_KEY not found" }
        { id := some 0, method := "initialize" } 15
      = SendOutcome.processExited
          "Server exited early. Stderr:\nValueError: GEMINI_API_KEY not found" :=
  send_request_exited_not_ready _ _ _ rfl rfl

/-- C2, counterexample. With the stream readable but yielding an empty
line (stream closed, process still alive), send_request returns the Python
value None, a success-shaped absent value, rather than surfacing a
distinct connection-closed failure: the branch on line 27 of test_mcp.py
returns None for an empty line. -/
theorem send_request_empty_line_returns_none :
    send_request { ready := true, exited := false, line := "", stderr := "" }
        { id := some 1, method := "tools/list" } 15
      = SendOutcome.returnedNone :=
  rfl

/-- C2 (amended): whenever the response stream is readable but yields an
empty line, send_request returns None; the connection-closed condition is
signalled to the caller only through this None return value, which the
callers in main test for, and not through a distinct raised failure. -/
theorem send_request_closed_stream_none (env : PipeEnv) (req : Request) (t : Nat)
    (hr : env.ready = true) (hl : env.line = "") :
    send_request env req t = SendOutcome.returnedNone := by
  simp [send_request, hr, hl]

/-- Witness for the amended C2 theorem at a concrete environment. -/
theorem send_request_closed_stream_none_witness :
    send_request { ready := true, exited := false, line := "", stderr := "x" }
        { id := some 2, method := "tools/call" } 15
      = SendOutcome.returnedNone :=
  send_request_closed_stream_none _ _ _ rfl rfl

/-- C3: when no response data becomes ready within the timeout window and
the process is still alive, send_request fails with exactly one Timeout
error whose message names the method of the pending request; being a
function, a single invocation yields this single outcome, so it neither
returns normally nor delivers the failure twice. -/
theorem send_request_timeout_names_method (env : PipeEnv) (req : Request) (t : Nat)
    (hr : env.ready = false) (he : env.exited = false) :
    send_request env req t
      = SendOutcome.timeout
          ("No response after " ++ toString t ++ "s for " ++ req.method) := by
  simp [send_request, hr, he]

/-- Witness for the C3 theorem at a concrete environment. -/
theorem send_request_timeout_names_method_witness :
    send_request { ready := false, exited := false, line := "", stderr := "" }
        { id := some 1, method := "tools/list" } 15
      = SendOutcome.timeout "No response after 15s for tools/list" :=
  send_request_timeout_names_method _ _ _ rfl rfl

/-- C4, counterexample. list_models has no exception handler: on a
concrete environment where the directory exists and iterating it raises a
PermissionError, the exception propagates out of the handler instead of
being returned as a dict with status error. -/
theorem list_models_exception_propagates :
    list_models { dirExists := true,
                  listing := Except.error "PermissionError: Permission denied" }
      = Except.error "PermissionError: Permission denied" :=
  rfl

/-- C4 (amended): generate_image and gpu_status wrap their bodies in
exception handlers, so they always return a dict and, when the modelled
internal call raises, that dict is the mapping of status error with the
exception message; list_models lacks such a handler and (per the
counterexample) propagates exceptions raised while listing the
directory. -/
theorem handlers_catch_internal_exceptions :
    (∀ env p w, ∃ d, generate_image env p w = Except.ok d)
    ∧ (∀ env, ∃ d, gpu_status env = Except.ok d)
    ∧ (∀ env p w e, env.genaiModel = Except.error e →
        generate_image env p w
          = Except.ok [("status", PyVal.str "error"), ("message", PyVal.str e)])
    ∧ (∀ env p w e, env.genaiModel = Except.ok () → env.genContent = Except.error e →
        generate_image env p w
          = Except.ok [("status", PyVal.str "error"), ("message", PyVal.str e)])
    ∧ (∀ env p w e s, env.genaiModel = Except.ok () → env.genContent = Except.ok s →
        env.comfy = ReqOutcome.otherExc e →
        generate_image env p w
          = Except.ok [("status", PyVal.str "error"), ("message", PyVal.str e)])
    ∧ (∀ env e, env.run = Except.error e →
        gpu_status env
          = Except.ok [("status", PyVal.str "error"), ("message", PyVal.str e)]) := by
  refine ⟨?_, ?_, ?_, ?_, ?_, ?_⟩
  · intro env p w; exact ⟨_, rfl⟩
  · intro env; exact ⟨_, rfl⟩
  · intro env p w e h; simp [generate_image, h]
  · intro env p w e h1 h2; simp [generate_image, h1, h2]
  · intro env p w e s h1 h2 h3; simp [generate_image, h1, h2, h3]
  · intro env e h; simp [gpu_status, h]

/-- Witness for the amended C4 theorem at concrete environments. -/
theorem handlers_catch_internal_exceptions_witness :
    generate_image
        { genaiModel := Except.error "ValueError: GEMINI_API_KEY not found",
          genContent := Except.ok "x", comfy := ReqOutcome.ok }
        "a red fox" "flux_default"
      = Except.ok [("status", PyVal.str "error"),
                   ("message", PyVal.str "ValueError: GEMINI_API_KEY not found")]
    ∧ gpu_status { run := Except.error "TimeoutExpired: nvidia-smi" }
      = Except.ok [("status", PyVal.str "error"),
                   ("message", PyVal.str "TimeoutExpired: nvidia-smi")] :=
  ⟨handlers_catch_internal_exceptions.2.2.1 _ _ _ _ rfl,
   handlers_catch_internal_exceptions.2.2.2.2.2 _ _ rfl⟩

/-- C5, counterexample. On a concrete successful input, gpu_status returns
the three telemetry fields and no status field at all, refuting the claim
that every handler includes status success in its successful result. -/
theorem gpu_status_success_lacks_status_field :
    gpu_status { run := Except.ok { returncode := 0, stdout := "100,200,3" } }
      = Except.ok [("vram_used", PyVal.str "100 MB"),
                   ("vram_total", PyVal.str "200 MB"),
                   ("gpu_utilization", PyVal.str "3 %")]
    ∧ dictGet [("vram_used", PyVal.str "100 MB"),
               ("vram_total", PyVal.str "200 MB"),
               ("gpu_utilization", PyVal.str "3 %")] "status" = none :=
  ⟨rfl, rfl⟩

/-- C5 (amended): only generate_image marks its successful result with
status success; the successful results of list_models (directory present)
and gpu_status (returncode zero, three comma-separated fields) carry their
tool-specific fields and no status field. -/
theorem success_shapes :
    (∀ env p w s, env.genaiModel = Except.ok () → env.genContent = Except.ok s →
        (env.comfy = ReqOutcome.ok ∨ env.comfy = ReqOutcome.connectionError) →
        ∃ d, generate_image env p w = Except.ok d
          ∧ dictGet d "status" = some (PyVal.str "success"))
    ∧ (∀ env entries, env.dirExists = true → env.listing = Except.ok entries →
        ∃ d, list_models env = Except.ok d ∧ dictGet d "status" = none)
    ∧ (∀ env r u v w, env.run = Except.ok r → r.returncode = 0 →
        pySplit (pyStrip r.stdout) ',' = [u, v, w] →
        ∃ d, gpu_status env = Except.ok d ∧ dictGet d "status" = none) := by
  refine ⟨?_, ?_, ?_⟩
  · intro env p w s h1 h2 h3
    rcases h3 with h3 | h3
    · refine ⟨[("status", PyVal.str "success"), ("original_prompt", PyVal.str p),
        ("enhanced_prompt", PyVal.str s),
        ("backend_status", PyVal.str "ComfyUI is ONLINE")], ?_, rfl⟩
      simp [generate_image, h1, h2, h3]
    · refine ⟨[("status", PyVal.str "success"), ("original_prompt", PyVal.str p),
        ("enhanced_prompt", PyVal.str s),
        ("backend_status",
         PyVal.str "ComfyUI is OFFLINE (Start it to generate real images)")], ?_, rfl⟩
      simp [generate_image, h1, h2, h3]
  · intro env entries h1 h2
    refine ⟨[("category", PyVal.str "GGUF"),
      ("models", PyVal.strList ((entries.filter fun f => f.is_file).map fun f => f.name)),
      ("count", PyVal.int ((entries.filter fun f => f.is_file).map fun f => f.name).length)],
      ?_, rfl⟩
    simp [list_models, h1, h2]
  · intro env r u v w h1 h2 h3
    refine ⟨[("vram_used", PyVal.str (u ++ " MB")),
             ("vram_total", PyVal.str (v ++ " MB")),
             ("gpu_utilization", PyVal.str (w ++ " %"))], ?_, rfl⟩
    simp [gpu_status, h1, h2, h3]

/-- Witness for the amended C5 theorem at concrete environments. -/
theorem success_shapes_witness :
    (∃ d, generate_image
        { genaiModel := Except.ok (), genContent := Except.ok "enhanced fox",
          comfy := ReqOutcome.connectionError } "a red fox" "flux_default"
        = Except.ok d ∧ dictGet d "status" = some (PyVal.str "success"))
    ∧ (∃ d, list_models { dirExists := true, listing := Except.ok [] } = Except.ok d
        ∧ dictGet d "status" = none)
    ∧ (∃ d, gpu_status { run := Except.ok { returncode := 0, stdout := "100,200,3" } }
        = Except.ok d ∧ dictGet d "status" = none) :=
  ⟨success_shapes.1 _ _ _ _ rfl rfl (Or.inr rfl),
   success_shapes.2.1 _ _ rfl rfl,
   success_shapes.2.2 _ _ "100" "200" "3" rfl rfl rfl⟩

/-- C6, counterexample. Filtering the side-effect call sites of
generate_image for those passing no timeout argument leaves exactly the
external prompt-enhancement call model.generate_content, refuting the
claim that every network or process-spawn side effect inside the handlers
is individually invoked with an explicit finite time bound. -/
theorem generate_content_call_unbounded :
    (generate_image_external_calls.filter
        (fun c => c.timeoutSeconds.isNone)).map (fun c => c.callee)
      = ["model.generate_content"] :=
  rfl

/-- C6 (amended): the HTTP probe to the local image backend and the
GPU-query binary invocation each carry an explicit finite time bound, of 2
and 5 seconds; the external prompt-enhancement API call in generate_image
is invoked with no time bound. -/
theorem external_calls_bounds :
    (∀ c ∈ generate_image_external_calls ++ gpu_status_external_calls,
        c.callee ≠ "model.generate_content" → c.timeoutSeconds.isSome = true)
    ∧ ExternalCall.mk "requests.get 127.0.0.1:8188" (some 2) ∈ generate_image_external_calls
    ∧ ExternalCall.mk "subprocess.run nvidia-smi" (some 5) ∈ gpu_status_external_calls := by
  refine ⟨?_, by decide, by decide⟩
  decide

/-- Witness for the amended C6 theorem at the probe call site. -/
theorem external_calls_bounds_witness :
    (ExternalCall.mk "requests.get 127.0.0.1:8188" (some 2)).timeoutSeconds.isSome = true :=
  external_calls_bounds.1 _ (by decide) (by decide)

/-- C7: the tools list method is a pure function of the immutable
registry, so any two calls of a session return the identical ordered
sequence; that sequence has length three and names exactly generate_image,
list_models and gpu_status, in registration order. -/
theorem tools_list_stable :
    (∀ i j : Nat, tools_list i = tools_list j)
    ∧ (tools_list 0).length = 3
    ∧ tools_list 0 = ["generate_image", "list_models", "gpu_status"] :=
  ⟨fun _ _ => rfl, rfl, rfl⟩

/-- C8, counterexample. The teardown the finally clause of main runs is a
graceful terminate followed by a wait with no timeout argument, and
contains no forced kill: there is no bounded grace period after which the
process would be forcibly terminated, refuting that part of the claim. -/
theorem shutdown_has_no_bounded_grace :
    shutdown_ops = [ProcOp.terminate, ProcOp.wait none]
    ∧ ProcOp.kill ∉ shutdown_ops :=
  ⟨rfl, by decide⟩

/-- C8 (amended): on every exit path of the client session, normal
completion or failure at any earlier step, the finally clause runs the same
teardown: request graceful termination, then wait for exit without a
bound; terminate does not raise when the process already exited; no forced
kill after a grace period is performed. -/
theorem teardown_on_every_exit_path :
    (∀ body, main_teardown body = [ProcOp.terminate, ProcOp.wait none])
    ∧ (∀ alreadyExited, terminate_effect alreadyExited = Except.ok ())
    ∧ (∀ body, ProcOp.kill ∉ main_teardown body) := by
  refine ⟨?_, ?_, ?_⟩
  · intro body; cases body <;> rfl
  · intro b; rfl
  · intro body; cases body <;> simp [main_teardown, shutdown_ops]

/-- C9: when the model directory does not exist, list_models returns
exactly the mapping of status empty and a fixed non-empty message. -/
theorem list_models_missing_dir (env : FsEnv) (h : env.dirExists = false) :
    list_models env
      = Except.ok [("status", PyVal.str "empty"),
          ("message", PyVal.str "No GGUF models found in /mnt/scratch/models/GGUF")]
    ∧ "No GGUF models found in /mnt/scratch/models/GGUF" ≠ "" := by
  constructor
  · simp [list_models, h]
  · decide

/-- Witness for the C9 theorem at a concrete environment. -/
theorem list_models_missing_dir_witness :
    list_models { dirExists := false, listing := Except.ok [] }
      = Except.ok [("status", PyVal.str "empty"),
          ("message", PyVal.str "No GGUF models found in /mnt/scratch/models/GGUF")]
    ∧ "No GGUF models found in /mnt/scratch/models/GGUF" ≠ "" :=
  list_models_missing_dir _ rfl

/-- C10: when the model directory exists and listing it succeeds,
list_models returns category GGUF, the models field holding the names of
exactly the regular-file entries of the directory (entries that are not
regular files are excluded), and a count equal to the length of that
models list. -/
theorem list_models_existing_dir (env : FsEnv) (entries : List DirEntry)
    (h : env.dirExists = true) (hl : env.listing = Except.ok entries) :
    list_models env
      = Except.ok [("category", PyVal.str "GGUF"),
          ("models",
           PyVal.strList ((entries.filter fun f => f.is_file).map fun f => f.name)),
          ("count",
           PyVal.int ((entries.filter fun f => f.is_file).map fun f => f.name).length)] := by
  simp [list_models, h, hl]

/-- Witness for the C10 theorem at a concrete listing holding two regular
files and one subdirectory. -/
theorem list_models_existing_dir_witness :
    list_models { dirExists := true,
                  listing := Except.ok [{ name := "llama.gguf", is_file := true },
                                        { name := "subdir", is_file := false },
                                        { name := "qwen.gguf", is_file := true }] }
      = Except.ok [("category", PyVal.str "GGUF"),
          ("models", PyVal.strList ["llama.gguf", "qwen.gguf"]),
          ("count", PyVal.int 2)] :=
  list_models_existing_dir _
    [{ name := "llama.gguf", is_file := true },
     { name := "subdir", is_file := false },
     { name := "qwen.gguf", is_file := true }] rfl rfl
